import Mathlib

/-!
Verification of the build-orchestration engine of the bedrock-agentic-builder
repository.  The development shallowly embeds

* the Build Lifecycle API Lambda (functions `start_build`, `cancel_build`,
  `list_builds`, `get_build_status` from `cdk/lib/api-gateway-stack.ts`,
  canonical Step Functions variant),
* the Step Functions workflow (`cdk/lib/step-functions-stack.ts`): the
  `TestsPassed?` and `MaxIterationsReached?` choice states, the deployer
  chain, and the `ParallelBuilders` map state with `maxConcurrency: 6`,
* the DynamoDB build-state table with its `status-index` global secondary
  index (partition key `status`, sort key `created_at`) from the storage
  stack.

Timestamps are modelled as natural numbers: the code stores ISO-8601 UTC
strings, whose lexicographic order (the order DynamoDB sorts by) agrees with
chronological order.  Statuses are modelled as the raw strings the code uses.
External collaborators (the Step Functions client, the clock, the uuid
generator) are passed in as explicit parameters, one constructor per outcome
the code distinguishes.
-/

namespace BedrockBuilder

/-- A row of the `bedrock-builder-state` DynamoDB table, as written by
`start_build` (all fields of the `put_item` call) plus the optional `error`
attribute written by the failure-path `update_item`. -/
structure BuildRecord where
  build_id : String
  task : String
  mode : String
  status : String
  current_iteration : Nat
  max_iterations : Nat
  created_at : Nat
  updated_at : Nat
  error : Option String
  deriving DecidableEq

/-- The build-state table: one record per `build_id`. -/
abbrev Store := List BuildRecord

/-- DynamoDB `get_item` on the primary key. -/
def getItem (db : Store) (bid : String) : Option BuildRecord :=
  db.find? (fun r => r.build_id == bid)

/-- DynamoDB `put_item`: replaces any existing item with the same key. -/
def putItem (db : Store) (r : BuildRecord) : Store :=
  r :: db.filter (fun x => x.build_id != r.build_id)

/-- DynamoDB `update_item`: applies the update expression `f` to the item
with the given key, leaving all other items untouched. -/
def updateItem (db : Store) (bid : String) (f : BuildRecord → BuildRecord) : Store :=
  db.map (fun r => if r.build_id == bid then f r else r)

/-- Update expression of the `start_build` failure path:
`SET #status = :status, error = :error` — it writes only `status` and
`error`; no `updated_at` component appears in the expression. -/
def startFailureUpdate (errMsg : String) (r : BuildRecord) : BuildRecord :=
  { r with status := "failed", error := some errMsg }

/-- Update expression of the `cancel_build` success path:
`SET #status = :status, updated_at = :updated_at`. -/
def cancelUpdate (now : Nat) (r : BuildRecord) : BuildRecord :=
  { r with status := "cancelled", updated_at := now }

/-- The JSON keys the API handler actually emits in response bodies,
together with the HTTP status code. -/
structure ApiResponse where
  statusCode : Nat
  body_build_id : Option String := none
  body_status : Option String := none
  body_error : Option String := none
  body_message : Option String := none
  deriving DecidableEq

/-- Request body of `POST /build`; `none` means the key is absent. -/
structure StartRequest where
  task : Option String := none
  mode : Option String := none
  max_iterations : Option Nat := none

/-- Python truthiness of `body.get('task')`: `None` and the empty string are
falsy, so `if not task` rejects both. -/
def isFalsyStr : Option String → Bool
  | none => true
  | some s => s == ""

/-- Outcome of the `sfn.start_execution` call, one constructor per branch of
the `try`/`except` in `start_build`. -/
inductive SfnStartOutcome
  | started (executionArn : String)
  | startThrows (msg : String)

/-- The execution input `start_build` serialises for the state machine. -/
structure ExecutionInput where
  build_id : String
  task : String
  mode : String
  max_iterations : Nat
  deriving DecidableEq

/-- Externally visible side effects of `start_build`, in program order. -/
inductive Effect
  | putRecord (r : BuildRecord)
  | startExecution (execName : String) (input : ExecutionInput)
  | updateFailedStatus (bid : String) (errMsg : String)
  deriving DecidableEq

/-- Result of one `start_build` call: the table afterwards, the HTTP
response, and the ordered trace of side effects. -/
structure StartResult where
  db : Store
  response : ApiResponse
  effects : List Effect
  deriving DecidableEq

/-- `start_build` from the API handler.  `new_id` stands for the generated
`uuid4` and `now` for `datetime.utcnow().isoformat()` (computed once at the
top of the function). -/
def start_build (db : Store) (req : StartRequest) (new_id : String) (now : Nat)
    (sfn : SfnStartOutcome) : StartResult :=
  if isFalsyStr req.task then
    { db := db
      response := { statusCode := 400, body_error := some "task is required" }
      effects := [] }
  else
    let task := req.task.getD ""
    let mode := req.mode.getD "new_project"
    let maxIt := req.max_iterations.getD 3
    let newRec : BuildRecord :=
      { build_id := new_id, task := task, mode := mode, status := "initiated",
        current_iteration := 0, max_iterations := maxIt,
        created_at := now, updated_at := now, error := none }
    let db1 := putItem db newRec
    let execInput : ExecutionInput :=
      { build_id := new_id, task := task, mode := mode, max_iterations := maxIt }
    match sfn with
    | .started _arn =>
      { db := db1
        response := { statusCode := 202, body_build_id := some new_id,
                      body_status := some "initiated",
                      body_message := some "Build started with parallel execution" }
        effects := [.putRecord newRec, .startExecution new_id execInput] }
    | .startThrows msg =>
      let errMsg := "Error starting Step Functions execution: " ++ msg
      { db := updateItem db1 new_id (startFailureUpdate errMsg)
        response := { statusCode := 500, body_build_id := some new_id,
                      body_status := some "failed", body_error := some errMsg }
        effects := [.putRecord newRec, .startExecution new_id execInput,
                    .updateFailedStatus new_id errMsg] }

/-- Outcome of the `sfn.stop_execution` call in `cancel_build`, one
constructor per `except` branch the code distinguishes. -/
inductive StopOutcome
  | stopOk
  | executionDoesNotExist
  | stopThrows (msg : String)

/-- The guard `current_status in ['completed', 'cancelled', 'failed']` of
`cancel_build`, exactly as the source spells it. -/
def terminalGuard (status : String) : Bool :=
  status == "completed" || status == "cancelled" || status == "failed"

/-- Result of one `cancel_build` call. -/
structure CancelResult where
  db : Store
  response : ApiResponse
  deriving DecidableEq

/-- `cancel_build` from the API handler.  `now` stands for the
`datetime.utcnow().isoformat()` taken inside the update call. -/
def cancel_build (db : Store) (bid : String) (now : Nat) (stop : StopOutcome) :
    CancelResult :=
  match getItem db bid with
  | none =>
    { db := db, response := { statusCode := 404, body_error := some "Build not found" } }
  | some b =>
    if terminalGuard b.status then
      { db := db
        response := { statusCode := 400,
                      body_error := some "Build cannot be cancelled",
                      body_message := some ("Build is already in " ++ b.status ++ " state") } }
    else
      match stop with
      | .stopOk =>
        { db := updateItem db bid (cancelUpdate now)
          response := { statusCode := 200, body_build_id := some bid,
                        body_status := some "cancelled",
                        body_message := some "Build cancelled successfully" } }
      | .executionDoesNotExist =>
        { db := db
          response := { statusCode := 400,
                        body_error := some "Cannot cancel build",
                        body_message := some "Step Functions execution not found or already completed" } }
      | .stopThrows msg =>
        { db := db
          response := { statusCode := 500,
                        body_error := some ("Error cancelling build: " ++ msg) } }

/-- Comparison function of the `status-index` query with
`ScanIndexForward=False`: descending on the sort key `created_at`. -/
def createdAtDesc (a b : BuildRecord) : Bool :=
  b.created_at ≤ a.created_at

/-- The `status-index` query of `list_builds`: items whose `status` equals
the filter value, ordered by the GSI sort key `created_at` descending, with
`Limit=50` applied. -/
def queryStatusIndex (db : Store) (s : String) (limit : Nat) : List BuildRecord :=
  ((db.filter (fun r => r.status == s)).mergeSort createdAtDesc).take limit

/-- Response of `GET /builds`. -/
structure ListResponse where
  statusCode : Nat
  builds : List BuildRecord
  count : Nat

/-- `list_builds` from the API handler. -/
def list_builds (db : Store) (status_filter : Option String) : ListResponse :=
  match status_filter with
  | some s =>
    let items := queryStatusIndex db s 50
    { statusCode := 200, builds := items, count := items.length }
  | none =>
    let items := db.take 50
    { statusCode := 200, builds := items, count := items.length }

/-- The fields of the Tester result the choice states inspect:
`$.tester_result.statusCode`, `$.tester_result.body.tests_passed`,
`$.tester_result.body.iteration`. -/
structure TesterResult where
  statusCode : Nat
  tests_passed : Bool
  iteration : Nat
  deriving DecidableEq

/-- Where the `TestsPassed?` choice sends the execution next. -/
inductive Decision
  | deploy
  | failTesterLambdaError
  | failMaxIterationsReached
  | selfHealToArchitect
  deriving DecidableEq

/-- The `TestsPassed?` choice state and the nested `MaxIterationsReached?`
choice, with the rules in the order the source lists them: first
`statusCode = 200 and tests_passed = true` (to the Deployer), then
`statusCode = 500` (Fail `TesterLambdaError`), otherwise the nested choice
`iteration >= 3` (Fail `MaxIterationsReached`) with `architectTask` as its
`otherwise` target.  The iteration bound is the literal `3` from the source;
no condition references the `max_iterations` of the execution input. -/
def testsPassedChoice (t : TesterResult) : Decision :=
  if t.statusCode = 200 ∧ t.tests_passed = true then .deploy
  else if t.statusCode = 500 then .failTesterLambdaError
  else if 3 ≤ t.iteration then .failMaxIterationsReached
  else .selfHealToArchitect

/-- The same decision seen from an execution whose input carries
`max_iterations` (the API passes it in `execution_input`): the choice rules
never read that value, so it is an unused argument. -/
def workflowDecision (_max_iterations : Nat) (t : TesterResult) : Decision :=
  testsPassedChoice t

/-- Payload of the Deployer invocation: the literal
`{build_id, test_result: PASSED}` from `deployerTask`. -/
structure DeployerPayload where
  build_id : String
  test_result : String
  deriving DecidableEq

/-- Stage invocations the workflow can issue after the Tester returns. -/
inductive StageInvocation
  | deployerInvoke (p : DeployerPayload)
  | architectInvoke (build_id : String)
  deriving DecidableEq

/-- How the execution proceeds after the decision. -/
inductive WfOutcome
  | succeeded
  | failedWf (error : String)
  | reArchitect
  deriving DecidableEq

/-- The workflow from the `TestsPassed?` choice onwards: the Deployer branch
is `deployerTask.next(Succeed)` (the `BuildSucceeded` state), the two Fail
branches invoke nothing further, and the self-healing branch re-enters
`architectTask`.  `deployerOk` is whether the Deployer Lambda invocation
succeeds; a failed invocation fails the execution (no catch is attached). -/
def runAfterTester (bid : String) (t : TesterResult) (deployerOk : Bool) :
    List StageInvocation × WfOutcome :=
  match testsPassedChoice t with
  | .deploy =>
    ([.deployerInvoke { build_id := bid, test_result := "PASSED" }],
     if deployerOk then .succeeded else .failedWf "DeployerInvocationFailed")
  | .failTesterLambdaError => ([], .failedWf "TesterLambdaError")
  | .failMaxIterationsReached => ([], .failedWf "MaxIterationsReached")
  | .selfHealToArchitect => ([.architectInvoke bid], .reArchitect)

/-- A `FileTask` produced by `prepare_parallel_builds`: the fields the
`ParallelBuilders` map state projects into each Builder payload. -/
structure FileTask where
  file_path : String
  specification : String
  language : String
  deriving DecidableEq

/-- Whether the round is still inside the `ParallelBuilders` map state or
has moved on to `testerTask` (the `.next` target of the map state). -/
inductive RoundPhase
  | mapping
  | testing
  deriving DecidableEq

/-- State of one parallel-build round: tasks not yet dispatched, Builder
invocations currently in flight, and resolved invocations with their
returned `status` string. -/
structure RoundState where
  phase : RoundPhase
  pending : Multiset FileTask
  inflight : Multiset FileTask
  done : Multiset (FileTask × String)
  deriving DecidableEq

/-- Small-step semantics of the `ParallelBuilders` map state with
`maxConcurrency: 6`, chained into `testerTask`:

* `dispatch`: while inside the map state, a pending item may start a Builder
  invocation only when fewer than 6 are in flight;
* `complete`: an in-flight Builder invocation resolves with a result;
* `startTester`: the map state completes — and control reaches `testerTask` —
  only when no item is pending or in flight. -/
inductive RoundStep : RoundState → RoundState → Prop
  | dispatch (s : RoundState) (t : FileTask) :
      s.phase = .mapping → t ∈ s.pending → Multiset.card s.inflight < 6 →
      RoundStep s { s with pending := s.pending.erase t, inflight := t ::ₘ s.inflight }
  | complete (s : RoundState) (t : FileTask) (r : String) :
      s.phase = .mapping → t ∈ s.inflight →
      RoundStep s { s with inflight := s.inflight.erase t, done := (t, r) ::ₘ s.done }
  | startTester (s : RoundState) :
      s.phase = .mapping → s.pending = 0 → s.inflight = 0 →
      RoundStep s { s with phase := .testing }

/-- Start of a round: the `tasks` array returned by
`prepare_parallel_builds`, nothing dispatched yet. -/
def initRound (tasks : List FileTask) : RoundState :=
  { phase := .mapping, pending := ↑tasks, inflight := 0, done := 0 }

/-- States a round can reach from its start. -/
def RoundReachable (tasks : List FileTask) (s : RoundState) : Prop :=
  Relation.ReflTransGen RoundStep (initRound tasks) s

/-! ### Store helper lemmas -/

/-- Looking up the key just written by `put_item` returns the new record. -/
theorem getItem_putItem (db : Store) (r : BuildRecord) :
    getItem (putItem db r) r.build_id = some r := by
  unfold getItem putItem
  exact List.find?_cons_of_pos _ (by simp)

/-- Looking up a key after `update_item` with a key-preserving update
expression returns the updated record. -/
theorem getItem_updateItem (db : Store) (bid : String) (f : BuildRecord → BuildRecord)
    (hf : ∀ r, (f r).build_id = r.build_id) (b : BuildRecord)
    (hget : getItem db bid = some b) :
    getItem (updateItem db bid f) bid = some (f b) := by
  unfold getItem at hget
  have hb : (b.build_id == bid) = true := by
    have := List.find?_some hget
    simpa using this
  unfold getItem updateItem
  rw [List.find?_map]
  have hpred : ((fun r => r.build_id == bid) ∘ fun r => if r.build_id == bid then f r else r)
      = (fun r => r.build_id == bid) := by
    funext r
    by_cases hr : (r.build_id == bid) = true
    · simp [Function.comp, hr, hf r]
    · simp [Function.comp, hr]
  rw [hpred, hget]
  have hbid : b.build_id = bid := by simpa using hb
  simp [hbid]

/-! ### Claim theorems -/

/-- C1 (code bug): the self-healing decision does not compare the Tester
iteration against the build's `max_iterations` — the nested choice uses the
literal `3`, and no choice rule reads the `max_iterations` of the execution
input.  At the claim's own scenario (a build started with
`max_iterations = 1` whose first test round fails: Tester returns status
code 200, `tests_passed = false`, `iteration = 1`) the decision is the
self-healing edge back to `architectTask`, for every value of
`max_iterations`, instead of the `MaxIterationsReached` failure the claim
requires. -/
theorem C1_iteration_check_ignores_max_iterations :
    (∀ m : Nat, workflowDecision m
        { statusCode := 200, tests_passed := false, iteration := 1 } =
      Decision.selfHealToArchitect) ∧
    testsPassedChoice { statusCode := 200, tests_passed := false, iteration := 1 } ≠
      Decision.failMaxIterationsReached := by
  exact ⟨fun _m => rfl, by decide⟩

/-- C2 (code bug): the terminal guard of `cancel_build` is
`['completed', 'cancelled', 'failed']`, which does not contain `passed` —
the success status the documentation and the rest of the system use.
Cancelling a build whose stored status is `passed` therefore passes the
guard: when the stop call succeeds the handler returns 200 and overwrites
the stored status to `cancelled`, instead of answering `InvalidState` (400)
and leaving the status `passed` as the claim requires. -/
theorem C2_cancel_of_passed_build_not_rejected :
    terminalGuard "passed" = false ∧
    cancel_build
        [{ build_id := "b-1", task := "demo", mode := "new_project", status := "passed",
           current_iteration := 1, max_iterations := 3, created_at := 2, updated_at := 4,
           error := none }] "b-1" 9 StopOutcome.stopOk =
      { db := [{ build_id := "b-1", task := "demo", mode := "new_project",
                 status := "cancelled", current_iteration := 1, max_iterations := 3,
                 created_at := 2, updated_at := 9, error := none }],
        response := { statusCode := 200, body_build_id := some "b-1",
                      body_status := some "cancelled",
                      body_message := some "Build cancelled successfully" } } := by
  exact ⟨rfl, by decide⟩

/-- C3 counterexample: the fatal-Tester rule matches only status code
exactly 500, not every 5xx code.  A Tester result with status code 502 and
`iteration = 5` falls through to the iteration check and fails with
`MaxIterationsReached`, and one with status code 503 and `iteration = 1`
even re-enters the self-healing loop — neither yields `TesterLambdaError`
as the claim requires for all 5xx codes. -/
theorem C3_counterexample_502_not_fatal :
    testsPassedChoice { statusCode := 502, tests_passed := false, iteration := 5 } =
      Decision.failMaxIterationsReached ∧
    testsPassedChoice { statusCode := 503, tests_passed := false, iteration := 1 } =
      Decision.selfHealToArchitect := by
  decide

/-- C3 (amended): for every Tester result whose status code is exactly 500,
the decision is the `TesterLambdaError` failure — regardless of the
`tests_passed` flag (the tests-passed rule requires status 200, so it never
fires) and without reaching the iteration-count check. -/
theorem C3_tester_500_is_fatal (t : TesterResult) (h : t.statusCode = 500) :
    testsPassedChoice t = Decision.failTesterLambdaError := by
  simp [testsPassedChoice, h]

/-- C3 witness: a concrete Tester result with status code 500 (and even
`tests_passed = true`) is decided as `TesterLambdaError`. -/
theorem C3_witness :
    ({ statusCode := 500, tests_passed := true, iteration := 0 } : TesterResult).statusCode
        = 500 ∧
    testsPassedChoice { statusCode := 500, tests_passed := true, iteration := 0 } =
      Decision.failTesterLambdaError :=
  ⟨rfl, C3_tester_500_is_fatal _ rfl⟩

/-- C4 counterexample: when the execution no longer exists, `cancel_build`
on a non-terminal build does surface an error to the caller — a 400
response whose body carries `error: Cannot cancel build` — rather than the
error-free no-op the claim describes (the store is indeed left untouched,
but the caller does receive an error response). -/
theorem C4_counterexample_error_surfaced :
    (cancel_build
        [{ build_id := "b-9", task := "demo", mode := "new_project", status := "testing",
           current_iteration := 1, max_iterations := 3, created_at := 0, updated_at := 2,
           error := none }] "b-9" 7 StopOutcome.executionDoesNotExist).response =
      { statusCode := 400, body_error := some "Cannot cancel build",
        body_message := some "Step Functions execution not found or already completed" } := by
  decide

/-- C4 (amended): for every cancel of a non-terminal build whose execution
no longer exists, the missing-execution condition is caught — it does not
become a 500 — and the handler returns a 400 response naming the condition
while leaving the store untouched, so the stored status stays
authoritative. -/
theorem C4_race_caught_store_untouched (db : Store) (bid : String) (now : Nat)
    (b : BuildRecord) (hget : getItem db bid = some b)
    (hterm : terminalGuard b.status = false) :
    cancel_build db bid now StopOutcome.executionDoesNotExist =
      { db := db,
        response := { statusCode := 400, body_error := some "Cannot cancel build",
                      body_message := some "Step Functions execution not found or already completed" } } := by
  unfold cancel_build
  rw [hget]
  simp [hterm]

/-- C4 witness: a concrete non-terminal build (`testing`) cancelled while
the execution is gone yields the 400 response and an unchanged store. -/
theorem C4_witness :
    getItem
        [{ build_id := "b-9", task := "demo", mode := "new_project", status := "testing",
           current_iteration := 1, max_iterations := 3, created_at := 0, updated_at := 2,
           error := none }] "b-9" =
      some { build_id := "b-9", task := "demo", mode := "new_project", status := "testing",
             current_iteration := 1, max_iterations := 3, created_at := 0, updated_at := 2,
             error := none } ∧
    terminalGuard "testing" = false ∧
    cancel_build
        [{ build_id := "b-9", task := "demo", mode := "new_project", status := "testing",
           current_iteration := 1, max_iterations := 3, created_at := 0, updated_at := 2,
           error := none }] "b-9" 7 StopOutcome.executionDoesNotExist =
      { db := [{ build_id := "b-9", task := "demo", mode := "new_project", status := "testing",
                 current_iteration := 1, max_iterations := 3, created_at := 0, updated_at := 2,
                 error := none }],
        response := { statusCode := 400, body_error := some "Cannot cancel build",
                      body_message := some "Step Functions execution not found or already completed" } } := by
  refine ⟨by decide, rfl, ?_⟩
  exact C4_race_caught_store_untouched _ "b-9" 7
    { build_id := "b-9", task := "demo", mode := "new_project", status := "testing",
      current_iteration := 1, max_iterations := 3, created_at := 0, updated_at := 2,
      error := none } (by decide) rfl

/-- C5 counterexample: the failure-path update of `start_build` does not
refresh `updated_at`.  Starting a build at time 5 whose execution start
throws leaves a record that was mutated to `failed` with an error message,
yet whose `updated_at` still equals the creation timestamp 5 — it does not
differ from its prior value as the claim requires. -/
theorem C5_counterexample_start_failure_update :
    getItem (start_build [] { task := some "demo task" } "b-1" 5
        (SfnStartOutcome.startThrows "boom")).db "b-1" =
      some { build_id := "b-1", task := "demo task", mode := "new_project",
             status := "failed", current_iteration := 0, max_iterations := 3,
             created_at := 5, updated_at := 5,
             error := some "Error starting Step Functions execution: boom" } := by
  decide

/-- C5 (amended): the cancel path refreshes `updated_at` to the time of the
write (its update expression sets `status` and `updated_at`), but the
failure-path update of `start_build` writes only `status` and `error` and
leaves `updated_at` unchanged — not every mutation refreshes it. -/
theorem C5_updated_at_refresh (now : Nat) (r : BuildRecord) (msg : String) :
    (cancelUpdate now r).updated_at = now ∧
    (cancelUpdate now r).status = "cancelled" ∧
    (startFailureUpdate msg r).updated_at = r.updated_at ∧
    (startFailureUpdate msg r).status = "failed" :=
  ⟨rfl, rfl, rfl, rfl⟩

/-- C9: whenever the Tester returns status code 200 with
`tests_passed = true`, the workflow issues exactly one further stage
invocation — the Deployer, with payload `{build_id, test_result: PASSED}` —
and on Deployer success the execution ends in the `BuildSucceeded` terminal
state without re-entering the Architect (the invocation list contains no
`architectInvoke`). -/
theorem C9_deployer_once_then_passed (bid : String) (t : TesterResult)
    (h200 : t.statusCode = 200) (hp : t.tests_passed = true) :
    runAfterTester bid t true =
      ([StageInvocation.deployerInvoke { build_id := bid, test_result := "PASSED" }],
       WfOutcome.succeeded) := by
  simp [runAfterTester, testsPassedChoice, h200, hp]

/-- C9 witness: a concrete passing Tester result leads to the single
Deployer invocation and the `succeeded` outcome. -/
theorem C9_witness :
    ({ statusCode := 200, tests_passed := true, iteration := 1 } : TesterResult).statusCode
        = 200 ∧
    ({ statusCode := 200, tests_passed := true, iteration := 1 } : TesterResult).tests_passed
        = true ∧
    runAfterTester "b-7" { statusCode := 200, tests_passed := true, iteration := 1 } true =
      ([StageInvocation.deployerInvoke { build_id := "b-7", test_result := "PASSED" }],
       WfOutcome.succeeded) :=
  ⟨rfl, rfl, C9_deployer_once_then_passed "b-7" _ rfl rfl⟩

/-- C7: a start request whose `task` field is missing (or empty, which
Python truthiness also rejects) gets an immediate 400 validation error with
an unchanged store and an empty effect trace — no record is created and no
execution is started; and when a non-empty `task` is present with `mode`
and `max_iterations` absent, the record that is written carries the
defaults `mode = new_project` and `max_iterations = 3`. -/
theorem C7_validation_and_defaults (db : Store) (req : StartRequest) (id : String)
    (now : Nat) (sfn : SfnStartOutcome) (task : String) :
    (isFalsyStr req.task = true →
      start_build db req id now sfn =
        { db := db,
          response := { statusCode := 400, body_error := some "task is required" },
          effects := [] }) ∧
    (req.task = some task → task ≠ "" → req.mode = none → req.max_iterations = none →
      (start_build db req id now sfn).effects.head? =
        some (Effect.putRecord
          { build_id := id, task := task, mode := "new_project", status := "initiated",
            current_iteration := 0, max_iterations := 3, created_at := now,
            updated_at := now, error := none })) := by
  constructor
  · intro h
    simp [start_build, h]
  · intro ht hne hm hmi
    have hfalsy : isFalsyStr (some task) = false := by
      simpa [isFalsyStr] using hne
    cases sfn <;> simp [start_build, hfalsy, ht, hm, hmi]

/-- C7 witness: a request with no `task` is rejected with 400 and no
effects, and a request with only a non-empty `task` creates a record with
the default mode and iteration cap. -/
theorem C7_witness :
    isFalsyStr (none : Option String) = true ∧
    start_build [] { task := none } "b-1" 3 (SfnStartOutcome.started "arn-1") =
      { db := [],
        response := { statusCode := 400, body_error := some "task is required" },
        effects := [] } ∧
    ({ task := some "build a tool" } : StartRequest).task = some "build a tool" ∧
    (start_build [] { task := some "build a tool" } "b-2" 3
        (SfnStartOutcome.started "arn-1")).effects.head? =
      some (Effect.putRecord
        { build_id := "b-2", task := "build a tool", mode := "new_project",
          status := "initiated", current_iteration := 0, max_iterations := 3,
          created_at := 3, updated_at := 3, error := none }) := by
  refine ⟨rfl, ?_, rfl, ?_⟩
  · exact (C7_validation_and_defaults [] { task := none } "b-1" 3
      (SfnStartOutcome.started "arn-1") "").1 rfl
  · exact (C7_validation_and_defaults [] { task := some "build a tool" } "b-2" 3
      (SfnStartOutcome.started "arn-1") "build a tool").2 rfl (by decide) rfl rfl

/-- C10: for every start request with a valid task, the record (status
`initiated`, iteration 0) is put into the store before the execution is
started (the effect trace lists the put first); on a successful start the
caller gets 202 with the issued id and the record is retrievable; when the
start throws, the record is not deleted but updated to `failed` with the
error message, and the caller receives a 500 that still carries the issued
`build_id` — so a record exists in the store for every id the operation
returns. -/
theorem C10_record_for_every_issued_id (db : Store) (req : StartRequest) (id : String)
    (now : Nat) (arn msg task : String)
    (ht : req.task = some task) (hne : task ≠ "") :
    let newRec : BuildRecord :=
      { build_id := id, task := task, mode := req.mode.getD "new_project",
        status := "initiated", current_iteration := 0,
        max_iterations := req.max_iterations.getD 3,
        created_at := now, updated_at := now, error := none }
    let execInput : ExecutionInput :=
      { build_id := id, task := task, mode := req.mode.getD "new_project",
        max_iterations := req.max_iterations.getD 3 }
    let errMsg := "Error starting Step Functions execution: " ++ msg
    let ok := start_build db req id now (SfnStartOutcome.started arn)
    let bad := start_build db req id now (SfnStartOutcome.startThrows msg)
    ok.effects = [Effect.putRecord newRec, Effect.startExecution id execInput] ∧
    ok.response.statusCode = 202 ∧ ok.response.body_build_id = some id ∧
    getItem ok.db id = some newRec ∧
    bad.effects = [Effect.putRecord newRec, Effect.startExecution id execInput,
                   Effect.updateFailedStatus id errMsg] ∧
    bad.response.statusCode = 500 ∧ bad.response.body_build_id = some id ∧
    getItem bad.db id = some (startFailureUpdate errMsg newRec) := by
  intro newRec execInput errMsg ok bad
  have hfalsy : isFalsyStr (some task) = false := by
    simpa [isFalsyStr] using hne
  have hok : ok =
      { db := putItem db newRec,
        response := { statusCode := 202, body_build_id := some id,
                      body_status := some "initiated",
                      body_message := some "Build started with parallel execution" },
        effects := [Effect.putRecord newRec, Effect.startExecution id execInput] } := by
    simp [ok, start_build, hfalsy, ht, newRec, execInput]
  have hbad : bad =
      { db := updateItem (putItem db newRec) id (startFailureUpdate errMsg),
        response := { statusCode := 500, body_build_id := some id,
                      body_status := some "failed", body_error := some errMsg },
        effects := [Effect.putRecord newRec, Effect.startExecution id execInput,
                    Effect.updateFailedStatus id errMsg] } := by
    simp [bad, start_build, hfalsy, ht, newRec, execInput, errMsg]
  have hget : getItem (putItem db newRec) id = some newRec := getItem_putItem db newRec
  refine ⟨by rw [hok], by rw [hok], by rw [hok], by rw [hok]; exact hget,
          by rw [hbad], by rw [hbad], by rw [hbad], ?_⟩
  rw [hbad]
  exact getItem_updateItem (putItem db newRec) id (startFailureUpdate errMsg)
    (fun _r => rfl) newRec hget

/-- C10 witness: a concrete valid start request, in both the successful and
the throwing execution-start case. -/
theorem C10_witness :
    ({ task := some "demo task" } : StartRequest).task = some "demo task" ∧
    (start_build [] { task := some "demo task" } "b-3" 4
        (SfnStartOutcome.started "arn-2")).response.statusCode = 202 ∧
    getItem (start_build [] { task := some "demo task" } "b-3" 4
        (SfnStartOutcome.startThrows "denied")).db "b-3" =
      some { build_id := "b-3", task := "demo task", mode := "new_project",
             status := "failed", current_iteration := 0, max_iterations := 3,
             created_at := 4, updated_at := 4,
             error := some "Error starting Step Functions execution: denied" } := by
  have h := C10_record_for_every_issued_id [] { task := some "demo task" } "b-3" 4
    "arn-2" "denied" "demo task" rfl (by decide)
  exact ⟨rfl, h.2.1, h.2.2.2.2.2.2.2⟩

/-- C8: for every status-filtered list request, all returned records carry
the requested status, they are ordered by `created_at` descending (the
`status-index` query with `ScanIndexForward=False`), at most 50 are
returned (`Limit=50`), and the reported `count` is the number of returned
records. -/
theorem C8_list_filtered_sorted_bounded (db : Store) (s : String) :
    (∀ r ∈ (list_builds db (some s)).builds, r.status = s) ∧
    List.Sorted (fun a b => b.created_at ≤ a.created_at) (list_builds db (some s)).builds ∧
    (list_builds db (some s)).builds.length ≤ 50 ∧
    (list_builds db (some s)).count = (list_builds db (some s)).builds.length := by
  refine ⟨?_, ?_, ?_, rfl⟩
  · intro r hr
    have h1 : r ∈ (db.filter (fun x => x.status == s)).mergeSort createdAtDesc :=
      List.mem_of_mem_take hr
    have h2 : r ∈ db.filter (fun x => x.status == s) := List.mem_mergeSort.1 h1
    have h3 := (List.mem_filter.1 h2).2
    simpa using h3
  · have htrans : ∀ a b c : BuildRecord,
        createdAtDesc a b = true → createdAtDesc b c = true → createdAtDesc a c = true := by
      intro a b c hab hbc
      simp only [createdAtDesc, decide_eq_true_eq] at hab hbc ⊢
      omega
    have htotal : ∀ a b : BuildRecord,
        (createdAtDesc a b || createdAtDesc b a) = true := by
      intro a b
      simp only [createdAtDesc, Bool.or_eq_true, decide_eq_true_eq]
      omega
    have hs := List.sorted_mergeSort htrans htotal (db.filter (fun x => x.status == s))
    have hsub : ((db.filter (fun x => x.status == s)).mergeSort createdAtDesc).take 50
        |>.Sublist ((db.filter (fun x => x.status == s)).mergeSort createdAtDesc) :=
      List.take_sublist _ _
    have := List.Pairwise.sublist hsub hs
    exact this.imp (fun h => by simpa [createdAtDesc] using h)
  · exact List.length_take_le _ _

/-- C6: along every run of a parallel-build round, at most 6 Builder
invocations are ever in flight (`maxConcurrency: 6`); every `FileTask` of
the round sits in exactly one of pending, in flight, or resolved (so each
task is dispatched as one Builder invocation); and whenever control has
reached the Tester stage, every dispatched task of the round has resolved
— the resolved tasks are exactly the tasks of the round. -/
theorem C6_bounded_fanout_and_barrier (tasks : List FileTask) (s : RoundState)
    (h : RoundReachable tasks s) :
    Multiset.card s.inflight ≤ 6 ∧
    s.pending + s.inflight + Multiset.map Prod.fst s.done = ↑tasks ∧
    (s.phase = RoundPhase.testing →
      s.pending = 0 ∧ s.inflight = 0 ∧ Multiset.map Prod.fst s.done = ↑tasks) := by
  unfold RoundReachable at h
  induction h with
  | refl =>
    refine ⟨by simp [initRound], by simp [initRound], ?_⟩
    intro hph
    simp [initRound] at hph
  | tail hab hbc ih =>
    obtain ⟨ihcard, ihsum, _ihph⟩ := ih
    cases hbc with
    | dispatch t hph hmem hcard =>
      dsimp only
      refine ⟨?_, ?_, ?_⟩
      · simp only [Multiset.card_cons]
        omega
      · rename_i s1
        have hx : s1.pending.erase t + (t ::ₘ s1.inflight) = s1.pending + s1.inflight := by
          rw [Multiset.add_cons, ← Multiset.cons_add, Multiset.cons_erase hmem]
        calc s1.pending.erase t + (t ::ₘ s1.inflight) + Multiset.map Prod.fst s1.done
            = s1.pending + s1.inflight + Multiset.map Prod.fst s1.done := by rw [hx]
          _ = ↑tasks := ihsum
      · intro hph2
        rw [hph] at hph2
        simp at hph2
    | complete t r hph hmem =>
      dsimp only
      refine ⟨?_, ?_, ?_⟩
      · exact le_trans Multiset.card_erase_le ihcard
      · rename_i s1
        have hx : s1.inflight.erase t + (t ::ₘ Multiset.map Prod.fst s1.done)
            = s1.inflight + Multiset.map Prod.fst s1.done := by
          rw [Multiset.add_cons, ← Multiset.cons_add, Multiset.cons_erase hmem]
        calc s1.pending + s1.inflight.erase t + Multiset.map Prod.fst ((t, r) ::ₘ s1.done)
            = s1.pending + (s1.inflight.erase t + (t ::ₘ Multiset.map Prod.fst s1.done)) := by
              rw [Multiset.map_cons, add_assoc]
          _ = s1.pending + (s1.inflight + Multiset.map Prod.fst s1.done) := by rw [hx]
          _ = ↑tasks := by rw [← add_assoc]; exact ihsum
      · intro hph2
        rw [hph] at hph2
        simp at hph2
    | startTester hph hpend hinf =>
      dsimp only
      refine ⟨ihcard, ihsum, fun _ => ⟨hpend, hinf, ?_⟩⟩
      have hthis := ihsum
      rw [hpend, hinf] at hthis
      simpa using hthis

/-- C6 witness: a one-task round — dispatch the task, let it resolve, then
start the Tester — stays within the concurrency bound and reaches the
Tester only with the task resolved. -/
theorem C6_witness :
    RoundReachable [{ file_path := "main.py", specification := "print hello", language := "python" }]
      { phase := RoundPhase.testing, pending := 0, inflight := 0,
        done := {({ file_path := "main.py", specification := "print hello", language := "python" }, "SUCCESS")} } ∧
    (Multiset.card (0 : Multiset FileTask) ≤ 6 ∧
     (0 : Multiset FileTask) + (0 : Multiset FileTask) +
         Multiset.map Prod.fst
           ({({ file_path := "main.py", specification := "print hello", language := "python" }, "SUCCESS")} :
             Multiset (FileTask × String)) =
       ↑[({ file_path := "main.py", specification := "print hello", language := "python" } : FileTask)] ∧
     (RoundPhase.testing = RoundPhase.testing →
       (0 : Multiset FileTask) = 0 ∧ (0 : Multiset FileTask) = 0 ∧
       Multiset.map Prod.fst
           ({({ file_path := "main.py", specification := "print hello", language := "python" }, "SUCCESS")} :
             Multiset (FileTask × String)) =
         ↑[({ file_path := "main.py", specification := "print hello", language := "python" } : FileTask)])) := by
  have h1 : RoundStep
      (initRound [{ file_path := "main.py", specification := "print hello", language := "python" }])
      { phase := RoundPhase.mapping, pending := 0,
        inflight := {({ file_path := "main.py", specification := "print hello", language := "python" } : FileTask)},
        done := 0 } := by
    have heq :
        ({ initRound [{ file_path := "main.py", specification := "print hello", language := "python" }] with
            pending := (initRound [{ file_path := "main.py", specification := "print hello", language := "python" }]).pending.erase
              { file_path := "main.py", specification := "print hello", language := "python" },
            inflight := ({ file_path := "main.py", specification := "print hello", language := "python" } : FileTask) ::ₘ
              (initRound [{ file_path := "main.py", specification := "print hello", language := "python" }]).inflight } : RoundState) =
        { phase := RoundPhase.mapping, pending := 0,
          inflight := {({ file_path := "main.py", specification := "print hello", language := "python" } : FileTask)},
          done := 0 } := by decide
    exact heq ▸ RoundStep.dispatch _ _ rfl (by decide) (by decide)
  have h2 : RoundStep
      { phase := RoundPhase.mapping, pending := 0,
        inflight := {({ file_path := "main.py", specification := "print hello", language := "python" } : FileTask)},
        done := 0 }
      { phase := RoundPhase.mapping, pending := 0, inflight := 0,
        done := {({ file_path := "main.py", specification := "print hello", language := "python" }, "SUCCESS")} } := by
    have heq :
        ({ ({ phase := RoundPhase.mapping, pending := 0,
              inflight := {({ file_path := "main.py", specification := "print hello", language := "python" } : FileTask)},
              done := 0 } : RoundState) with
            inflight := ({({ file_path := "main.py", specification := "print hello", language := "python" } : FileTask)} : Multiset FileTask).erase
              { file_path := "main.py", specification := "print hello", language := "python" },
            done := (({ file_path := "main.py", specification := "print hello", language := "python" } : FileTask), "SUCCESS") ::ₘ
              (0 : Multiset (FileTask × String)) } : RoundState) =
        { phase := RoundPhase.mapping, pending := 0, inflight := 0,
          done := {({ file_path := "main.py", specification := "print hello", language := "python" }, "SUCCESS")} } := by decide
    exact heq ▸ RoundStep.complete _ _ "SUCCESS" rfl (by decide)
  have h3 : RoundStep
      { phase := RoundPhase.mapping, pending := 0, inflight := 0,
        done := {({ file_path := "main.py", specification := "print hello", language := "python" }, "SUCCESS")} }
      { phase := RoundPhase.testing, pending := 0, inflight := 0,
        done := {({ file_path := "main.py", specification := "print hello", language := "python" }, "SUCCESS")} } :=
    RoundStep.startTester _ rfl rfl rfl
  have hreach : RoundReachable
      [{ file_path := "main.py", specification := "print hello", language := "python" }]
      { phase := RoundPhase.testing, pending := 0, inflight := 0,
        done := {({ file_path := "main.py", specification := "print hello", language := "python" }, "SUCCESS")} } :=
    Relation.ReflTransGen.head h1 (Relation.ReflTransGen.head h2
      (Relation.ReflTransGen.head h3 Relation.ReflTransGen.refl))
  exact ⟨hreach, C6_bounded_fanout_and_barrier _ _ hreach⟩

end BedrockBuilder
